import Mathlib

/-!
Shallow embedding of the meteor-madness-challenge impact engine
(`meteor_api_model.py` and `meteor_csv_api.py`).

Conventions of the embedding:
* Python floats are idealized as real numbers `ℝ`; `math.sin`, `math.cos`,
  `math.sqrt`, `math.asin`, `math.pi` and the float power `**` become
  `Real.sin`, `Real.cos`, `Real.sqrt`, `Real.arcsin`, `Real.pi` and
  `Real.rpow` (for fractional exponents; integer exponents use monoid power).
* Python's `round(x, n)` becomes `pyRound n x` below.  Python rounds exact
  halves to even; Mathlib's `round` rounds halves up.  The two agree except
  at exact ties, which no statement below exercises.
* `float('inf')`, used by `find_nearest_city` as the initial minimum
  distance, is modelled as `none : Option ℝ`.
* The city coordinates in the source are exact decimal literals, so the
  table stores them as rationals; they are cast to `ℝ` inside the
  haversine computation.
-/

open Real

/-- Python `round(x, n)`: round to `n` decimal digits (ties modelled half-up). -/
noncomputable def pyRound (ndigits : ℕ) (x : ℝ) : ℝ :=
  (round (x * 10 ^ ndigits) : ℤ) / 10 ^ ndigits

/-- Python `int(x)`: truncation toward zero. -/
noncomputable def pyInt (x : ℝ) : ℤ :=
  if 0 ≤ x then ⌊x⌋ else -⌊-x⌋

/-- Python `math.radians(x) = x·π/180`. -/
noncomputable def radians (x : ℝ) : ℝ := x * Real.pi / 180

/-- One entry of the `MAJOR_CITIES` table: name ↦ (latitude, longitude, population). -/
structure City where
  name : String
  lat : ℚ
  lon : ℚ
  population : ℕ
deriving DecidableEq

set_option maxHeartbeats 1000000 in
/-- The `MAJOR_CITIES` dictionary of `meteor_api_model.py`, in insertion
order (Python dicts preserve it, and `find_nearest_city` iterates in it). -/
def MAJOR_CITIES : List City := [
  ⟨"New York, USA", 40.7128, -74.0060, 8336817⟩,
  ⟨"Los Angeles, USA", 34.0522, -118.2437, 3979576⟩,
  ⟨"Chicago, USA", 41.8781, -87.6298, 2693976⟩,
  ⟨"Houston, USA", 29.7604, -95.3698, 2320268⟩,
  ⟨"Phoenix, USA", 33.4484, -112.0740, 1680992⟩,
  ⟨"Philadelphia, USA", 39.9526, -75.1652, 1584064⟩,
  ⟨"San Antonio, USA", 29.4241, -98.4936, 1547253⟩,
  ⟨"San Diego, USA", 32.7157, -117.1611, 1423851⟩,
  ⟨"Dallas, USA", 32.7767, -96.7970, 1343573⟩,
  ⟨"San Jose, USA", 37.3382, -121.8863, 1021795⟩,
  ⟨"Seattle, USA", 47.6062, -122.3321, 753675⟩,
  ⟨"Denver, USA", 39.7392, -104.9903, 715522⟩,
  ⟨"Boston, USA", 42.3601, -71.0589, 692600⟩,
  ⟨"Miami, USA", 25.7617, -80.1918, 467963⟩,
  ⟨"Las Vegas, USA", 36.1699, -115.1398, 641903⟩,
  ⟨"Toronto, Canada", 43.6532, -79.3832, 2930000⟩,
  ⟨"Montreal, Canada", 45.5017, -73.5673, 1780000⟩,
  ⟨"Vancouver, Canada", 49.2827, -123.1207, 675218⟩,
  ⟨"Mexico City, Mexico", 19.4326, -99.1332, 9209944⟩,
  ⟨"Guadalajara, Mexico", 20.6597, -103.3496, 1495189⟩,
  ⟨"São Paulo, Brazil", -23.5505, -46.6333, 12325232⟩,
  ⟨"Rio de Janeiro, Brazil", -22.9068, -43.1729, 6748000⟩,
  ⟨"Buenos Aires, Argentina", -34.6037, -58.3816, 3075646⟩,
  ⟨"Lima, Peru", -12.0464, -77.0428, 9752000⟩,
  ⟨"Bogotá, Colombia", 4.7110, -74.0721, 7412566⟩,
  ⟨"Santiago, Chile", -33.4489, -70.6693, 5614000⟩,
  ⟨"Caracas, Venezuela", 10.4806, -66.9036, 2923959⟩,
  ⟨"London, UK", 51.5074, -0.1278, 8982000⟩,
  ⟨"Paris, France", 48.8566, 2.3522, 2161000⟩,
  ⟨"Berlin, Germany", 52.5200, 13.4050, 3769495⟩,
  ⟨"Madrid, Spain", 40.4168, -3.7038, 3223334⟩,
  ⟨"Rome, Italy", 41.9028, 12.4964, 2872800⟩,
  ⟨"Amsterdam, Netherlands", 52.3676, 4.9041, 821752⟩,
  ⟨"Vienna, Austria", 48.2082, 16.3738, 1911191⟩,
  ⟨"Warsaw, Poland", 52.2297, 21.0122, 1790658⟩,
  ⟨"Stockholm, Sweden", 59.3293, 18.0686, 975551⟩,
  ⟨"Athens, Greece", 37.9838, 23.7275, 664046⟩,
  ⟨"Moscow, Russia", 55.7558, 37.6173, 12506468⟩,
  ⟨"Istanbul, Turkey", 41.0082, 28.9784, 15462452⟩,
  ⟨"Kyiv, Ukraine", 50.4501, 30.5234, 2967360⟩,
  ⟨"Tokyo, Japan", 35.6762, 139.6503, 13960000⟩,
  ⟨"Beijing, China", 39.9042, 116.4074, 21540000⟩,
  ⟨"Shanghai, China", 31.2304, 121.4737, 27058480⟩,
  ⟨"Mumbai, India", 19.0760, 72.8777, 12442373⟩,
  ⟨"Delhi, India", 28.7041, 77.1025, 16753235⟩,
  ⟨"Bangalore, India", 12.9716, 77.5946, 8443675⟩,
  ⟨"Seoul, South Korea", 37.5665, 126.9780, 9776000⟩,
  ⟨"Bangkok, Thailand", 13.7563, 100.5018, 10539000⟩,
  ⟨"Singapore", 1.3521, 103.8198, 5685807⟩,
  ⟨"Manila, Philippines", 14.5995, 120.9842, 1780148⟩,
  ⟨"Jakarta, Indonesia", -6.2088, 106.8456, 10562088⟩,
  ⟨"Karachi, Pakistan", 24.8607, 67.0011, 14910352⟩,
  ⟨"Tehran, Iran", 35.6892, 51.3890, 8693706⟩,
  ⟨"Riyadh, Saudi Arabia", 24.7136, 46.6753, 7676654⟩,
  ⟨"Dubai, UAE", 25.2048, 55.2708, 3331420⟩,
  ⟨"Hong Kong", 22.3193, 114.1694, 7496981⟩,
  ⟨"Cairo, Egypt", 30.0444, 31.2357, 9500000⟩,
  ⟨"Lagos, Nigeria", 6.5244, 3.3792, 14862000⟩,
  ⟨"Johannesburg, South Africa", -26.2041, 28.0473, 5635127⟩,
  ⟨"Nairobi, Kenya", -1.2864, 36.8172, 4397073⟩,
  ⟨"Kinshasa, DR Congo", -4.4419, 15.2663, 14342000⟩,
  ⟨"Casablanca, Morocco", 33.5731, -7.5898, 3359818⟩,
  ⟨"Addis Ababa, Ethiopia", 9.0320, 38.7469, 3352000⟩,
  ⟨"Sydney, Australia", -33.8688, 151.2093, 5312163⟩,
  ⟨"Melbourne, Australia", -37.8136, 144.9631, 5078193⟩,
  ⟨"Brisbane, Australia", -27.4698, 153.0251, 2560720⟩,
  ⟨"Perth, Australia", -31.9505, 115.8605, 2125114⟩,
  ⟨"Auckland, New Zealand", -36.8485, 174.7633, 1571718⟩]

/-- The per-city distance computed inside the loop of `find_nearest_city`:
haversine great-circle distance, Earth radius `R = 6371` km. -/
noncomputable def haversineDist (lat lon : ℝ) (c : City) : ℝ :=
  let R : ℝ := 6371
  let dlat := radians ((c.lat : ℝ) - lat)
  let dlon := radians ((c.lon : ℝ) - lon)
  let a := Real.sin (dlat / 2) ^ 2 +
    Real.cos (radians lat) * Real.cos (radians (c.lat : ℝ)) * Real.sin (dlon / 2) ^ 2
  let c2 := 2 * Real.arcsin (Real.sqrt a)
  R * c2

/-- The loop of `find_nearest_city`: the accumulator is
`(nearest, min_distance)` with `min_distance = none` standing for the
initial `float('inf')`; an entry replaces it only on a strictly smaller
distance. -/
noncomputable def findNearestCityGo (lat lon : ℝ) :
    List City → String × Option ℝ → String × Option ℝ
  | [], acc => acc
  | c :: rest, (_, none) =>
      findNearestCityGo lat lon rest (c.name, some (haversineDist lat lon c))
  | c :: rest, (n, some m) =>
      findNearestCityGo lat lon rest
        (if haversineDist lat lon c < m then (c.name, some (haversineDist lat lon c))
         else (n, some m))

/-- `find_nearest_city` over an explicit table: scan all entries starting
from `("Unknown location", inf)` and round the minimal distance to 2
decimals at the end. -/
noncomputable def findNearestCityIn (table : List City) (lat lon : ℝ) :
    String × Option ℝ :=
  let acc := findNearestCityGo lat lon table ("Unknown location", none)
  (acc.1, acc.2.map (pyRound 2))

/-- `find_nearest_city(lat, lon)` of `meteor_api_model.py`. -/
noncomputable def find_nearest_city (lat lon : ℝ) : String × Option ℝ :=
  findNearestCityIn MAJOR_CITIES lat lon

/-- The `impact_risk` if-chain of `simulate_meteor_impact` (inlined in the
source), as a function of `energy_mt` and `damage_radius_km`. -/
noncomputable def impactRisk (energy_mt damage_radius_km : ℝ) : ℝ :=
  if energy_mt < 0.01 then 5
  else if energy_mt < 1 then min 50 (20 + damage_radius_km)
  else if energy_mt < 1000 then min 80 (50 + damage_radius_km * 0.5)
  else min 100 (80 + damage_radius_km * 0.1)

/-- The `impact_class` if-chain of `simulate_meteor_impact` (inlined in the
source), as a function of `energy_mt`. -/
noncomputable def impactClass (energy_mt : ℝ) : String :=
  if energy_mt < 0.01 then "Small fireball — harmless airburst"
  else if energy_mt < 1 then "Tunguska-scale regional event"
  else if energy_mt < 1000 then "City to country-scale devastation"
  else "Global catastrophic impact"

/-- The `casualty_estimate` if-chain of `simulate_meteor_impact` (inlined in
the source), as a function of `energy_mt`. -/
noncomputable def casualtyEstimate (energy_mt : ℝ) : String :=
  if energy_mt < 0.01 then "0-10 (minor injuries from debris)"
  else if energy_mt < 1 then "100s-1,000s (within 50km radius)"
  else if energy_mt < 1000 then "10,000s-100,000s (regional catastrophe)"
  else "Millions to billions (mass extinction event)"

/-- Python comparison `city_distance_km <= damage_radius_km`, where the left
side may be the infinite sentinel (`none`, compared as `+inf`, which is
`≤` no finite number). -/
def optionLE (o : Option ℝ) (r : ℝ) : Prop :=
  ∃ d, o = some d ∧ d ≤ r

/-- The dictionary returned by `simulate_meteor_impact`. -/
structure ImpactResult where
  mass_kg : ℝ
  impact_energy_j : ℝ
  impact_energy_mt : ℝ
  crater_diameter_m : ℝ
  damage_radius_km : ℝ
  proximity_risk : ℝ
  impact_risk : ℝ
  combined_risk_factor : ℝ
  impact_classification : String
  casualty_estimate : String
  nearest_city : String
  city_distance_km : Option ℝ
  city_affected : Prop

/-- `simulate_meteor_impact` of `meteor_api_model.py`.  The argument order
and the defaults `angle_deg=45`, `density_kg_m3=3000` follow the source. -/
noncomputable def simulate_meteor_impact (diameter_m velocity_km_s distance_km lat lon : ℝ)
    (angle_deg : ℝ := 45) (density_kg_m3 : ℝ := 3000) : ImpactResult :=
  let EARTH_DENSITY : ℝ := 2700
  let TNT_EQUIVALENT_J : ℝ := 4.184e15
  let MAX_DISTANCE_KM : ℝ := 1e7
  let radius_m := diameter_m / 2
  let velocity_m_s := velocity_km_s * 1000
  let angle_rad := radians angle_deg
  let mass_kg := (4 / 3) * Real.pi * radius_m ^ 3 * density_kg_m3
  let energy_j := 0.5 * mass_kg * velocity_m_s ^ 2 * Real.sin angle_rad
  let energy_mt := energy_j / TNT_EQUIVALENT_J
  let crater_diameter_m :=
    1.161 * (mass_kg ^ ((1 : ℝ) / 3) * velocity_m_s ^ (0.44 : ℝ)) / EARTH_DENSITY ^ (0.22 : ℝ)
  let crater_diameter_m := crater_diameter_m * Real.sin angle_rad ^ (0.33 : ℝ)
  let damage_radius_km := crater_diameter_m / 1000 * 20
  let proximity_risk := min 100 (max 0 ((MAX_DISTANCE_KM - distance_km) / 1e5))
  let impact_risk := impactRisk energy_mt damage_radius_km
  let combined_risk := proximity_risk * 0.4 + impact_risk * 0.6
  let combined_risk := pyRound 1 (min 100 (max 0 combined_risk))
  let nearest := find_nearest_city lat lon
  { mass_kg := mass_kg
    impact_energy_j := energy_j
    impact_energy_mt := energy_mt
    crater_diameter_m := crater_diameter_m
    damage_radius_km := damage_radius_km
    proximity_risk := proximity_risk
    impact_risk := impact_risk
    combined_risk_factor := combined_risk
    impact_classification := impactClass energy_mt
    casualty_estimate := casualtyEstimate energy_mt
    nearest_city := nearest.1
    city_distance_km := nearest.2
    city_affected := optionLE nearest.2 damage_radius_km }

/-- The four branches of `get_mitigation_strategy`.  The source returns a
long narrative f-string per branch; the embedding records which branch is
taken (the strings carry no further computation). -/
inductive MitigationTier where
  | LOW
  | MODERATE
  | HIGH
  | EXTREME
deriving DecidableEq

/-- Branch selection of `get_mitigation_strategy(risk_factor, ...)` in
`meteor_api_model.py`: thresholds `< 20`, `< 50`, `< 80`, else. -/
noncomputable def get_mitigation_strategy (risk_factor : ℝ) : MitigationTier :=
  if risk_factor < 20 then .LOW
  else if risk_factor < 50 then .MODERATE
  else if risk_factor < 80 then .HIGH
  else .EXTREME

/-- The `MITIGATION_STRATEGIES` list of `meteor_csv_api.py` (20 entries). -/
def MITIGATION_STRATEGIES : List String := [
  "Early detection and orbit monitoring to plan deflection.",
  "Evacuation of high-risk areas if impact is imminent.",
  "International coordination for disaster management.",
  "Deploy kinetic impactor to change asteroid trajectory.",
  "Use nuclear devices only as last-resort deflection.",
  "Public alert system for meteor airburst warnings.",
  "Secure critical infrastructure in potential impact zones.",
  "Simulation drills for cities under high risk.",
  "Satellite observation to track fragmenting meteors.",
  "Emergency medical preparation for blast injuries.",
  "Fire suppression readiness in case of fireball impacts.",
  "Marine alerts for potential tsunami from ocean impacts.",
  "Reinforcement of buildings against shockwaves.",
  "Debris shielding for satellites in orbit.",
  "Rapid response teams for search & rescue.",
  "Meteor insurance programs for property damage.",
  "Temporary exclusion zones around predicted impact sites.",
  "Analysis of meteor composition for chemical hazards.",
  "Post-impact environmental monitoring plans.",
  "Research into long-term planetary defense strategies."]

/-- `calculate_risk_factor` of `meteor_csv_api.py` (the simplified scorer
of the batch collector). -/
noncomputable def calculate_risk_factor (diameter velocity distance_km : ℝ) : ℝ :=
  let energy := 0.5 * (4 / 3 * Real.pi * (diameter / 2) ^ 3 * 3000) * (velocity * 1000) ^ 2
  let energy_mt := energy / 4.184e15
  let risk := min 100 (max 0 (energy_mt * 0.5 + (1e7 - distance_km) / 1e5))
  pyRound 1 risk

/-- The index expression of `choose_mitigation`:
`min(len(MITIGATION_STRATEGIES)-1, int(risk/5))`. -/
noncomputable def mitigationIndex (risk : ℝ) : ℤ :=
  min (MITIGATION_STRATEGIES.length - 1 : ℤ) (pyInt (risk / 5))

/-- Python list indexing `l[i]`: negative indices count from the end, and
an out-of-range index is an `IndexError` (modelled as `none`). -/
def pyListGet (l : List String) (i : ℤ) : Option String :=
  let j := if i < 0 then i + l.length else i
  if 0 ≤ j then l.get? j.toNat else none

/-- `choose_mitigation(risk)` of `meteor_csv_api.py`. -/
noncomputable def choose_mitigation (risk : ℝ) : Option String :=
  pyListGet MITIGATION_STRATEGIES (mitigationIndex risk)

/-! ### Arithmetic helper lemmas -/

theorem pyRound_zero (n : ℕ) : pyRound n 0 = 0 := by
  simp [pyRound]

theorem pyRound_mono (n : ℕ) {x y : ℝ} (h : x ≤ y) : pyRound n x ≤ pyRound n y := by
  have hp : (0:ℝ) < 10 ^ n := by positivity
  have h2 : round (x * 10 ^ n) ≤ round (y * 10 ^ n) := by
    rw [round_eq, round_eq]
    exact Int.floor_mono (by nlinarith)
  unfold pyRound
  gcongr

theorem pyRound_natCast (n B : ℕ) : pyRound n (B : ℝ) = B := by
  have h : ((B : ℝ) * 10 ^ n) = ((B * 10 ^ n : ℕ) : ℝ) := by push_cast; ring
  rw [pyRound, h, round_natCast]
  have hp : (10:ℝ) ^ n ≠ 0 := by positivity
  push_cast
  field_simp

theorem sin_radians_pos {a : ℝ} (h1 : 0 < a) (h2 : a ≤ 90) :
    0 < Real.sin (radians a) := by
  have hpi := Real.pi_pos
  apply Real.sin_pos_of_pos_of_lt_pi
  · unfold radians; positivity
  · unfold radians
    nlinarith

/-! ### Haversine distance lemmas -/

theorem haversineDist_nonneg (lat lon : ℝ) (c : City) : 0 ≤ haversineDist lat lon c := by
  have h : ∀ x : ℝ, 0 ≤ Real.arcsin (Real.sqrt x) :=
    fun x => Real.arcsin_nonneg.mpr (Real.sqrt_nonneg x)
  unfold haversineDist
  have := h (Real.sin (radians ((c.lat : ℝ) - lat) / 2) ^ 2 +
    Real.cos (radians lat) * Real.cos (radians (c.lat : ℝ)) *
      Real.sin (radians ((c.lon : ℝ) - lon) / 2) ^ 2)
  linarith

theorem haversineDist_self {lat lon : ℝ} {c : City}
    (h1 : (c.lat : ℝ) = lat) (h2 : (c.lon : ℝ) = lon) :
    haversineDist lat lon c = 0 := by
  unfold haversineDist radians
  rw [h1, h2]
  simp

theorem sin_half_sq_pos {d : ℝ} (hne : d ≠ 0) (habs : |d| < 360) :
    0 < Real.sin (radians d / 2) ^ 2 := by
  have hpi := Real.pi_pos
  have harg : radians d / 2 = d * (Real.pi / 360) := by unfold radians; ring
  have habs2 : |radians d / 2| < Real.pi := by
    rw [harg, abs_mul, abs_of_pos (by positivity : (0:ℝ) < Real.pi / 360)]
    nlinarith [abs_nonneg d]
  obtain ⟨hl, hr⟩ := abs_lt.mp habs2
  have hne2 : radians d / 2 ≠ 0 := by
    rw [harg]
    exact mul_ne_zero hne (by positivity)
  have hsin : Real.sin (radians d / 2) ≠ 0 := by
    rw [Ne, Real.sin_eq_zero_iff_of_lt_of_lt hl hr]
    exact hne2
  rcases lt_or_gt_of_ne hsin with h | h <;> nlinarith

theorem cos_radians_nonneg {x : ℝ} (h1 : -90 ≤ x) (h2 : x ≤ 90) :
    0 ≤ Real.cos (radians x) := by
  have hpi := Real.pi_pos
  apply Real.cos_nonneg_of_mem_Icc
  constructor <;> (unfold radians; nlinarith)

theorem cos_radians_pos {x : ℝ} (h1 : -90 < x) (h2 : x < 90) :
    0 < Real.cos (radians x) := by
  have hpi := Real.pi_pos
  apply Real.cos_pos_of_mem_Ioo
  constructor <;> (unfold radians; nlinarith)

theorem haversineDist_pos {lat lon : ℝ} {c : City}
    (hq1 : -90 < lat) (hq2 : lat < 90)
    (hc1 : (-90 : ℝ) < (c.lat : ℝ)) (hc2 : ((c.lat : ℝ) : ℝ) < 90)
    (hlon : |(c.lon : ℝ) - lon| < 360)
    (hne : (c.lat : ℝ) ≠ lat ∨ (c.lon : ℝ) ≠ lon) :
    0 < haversineDist lat lon c := by
  have hsum : 0 < Real.sin (radians ((c.lat : ℝ) - lat) / 2) ^ 2 +
      Real.cos (radians lat) * Real.cos (radians (c.lat : ℝ)) *
        Real.sin (radians ((c.lon : ℝ) - lon) / 2) ^ 2 := by
    rcases hne with h | h
    · have hterm : 0 < Real.sin (radians ((c.lat : ℝ) - lat) / 2) ^ 2 := by
        apply sin_half_sq_pos (sub_ne_zero.mpr h)
        rw [abs_lt]
        constructor <;> linarith
      have hrest : 0 ≤ Real.cos (radians lat) * Real.cos (radians (c.lat : ℝ)) *
          Real.sin (radians ((c.lon : ℝ) - lon) / 2) ^ 2 :=
        mul_nonneg (mul_nonneg (cos_radians_nonneg (by linarith) (by linarith))
          (cos_radians_nonneg (by linarith) (by linarith))) (sq_nonneg _)
      linarith
    · have hterm : 0 < Real.cos (radians lat) * Real.cos (radians (c.lat : ℝ)) *
          Real.sin (radians ((c.lon : ℝ) - lon) / 2) ^ 2 :=
        mul_pos (mul_pos (cos_radians_pos hq1 hq2) (cos_radians_pos hc1 hc2))
          (sin_half_sq_pos (sub_ne_zero.mpr h) hlon)
      have hrest : 0 ≤ Real.sin (radians ((c.lat : ℝ) - lat) / 2) ^ 2 := sq_nonneg _
      linarith
  have hsqrt : 0 < Real.sqrt (Real.sin (radians ((c.lat : ℝ) - lat) / 2) ^ 2 +
      Real.cos (radians lat) * Real.cos (radians (c.lat : ℝ)) *
        Real.sin (radians ((c.lon : ℝ) - lon) / 2) ^ 2) := Real.sqrt_pos.mpr hsum
  have harc := Real.arcsin_pos.mpr hsqrt
  unfold haversineDist
  linarith

/-! ### Lemmas about the nearest-city scan -/

theorem findNearestCityGo_append (lat lon : ℝ) (l₁ l₂ : List City)
    (acc : String × Option ℝ) :
    findNearestCityGo lat lon (l₁ ++ l₂) acc =
      findNearestCityGo lat lon l₂ (findNearestCityGo lat lon l₁ acc) := by
  induction l₁ generalizing acc with
  | nil => rfl
  | cons c rest ih =>
    obtain ⟨n, o⟩ := acc
    cases o with
    | none =>
      simp only [List.cons_append, findNearestCityGo]
      exact ih _
    | some m =>
      simp only [List.cons_append, findNearestCityGo]
      exact ih _

theorem findNearestCityGo_keep_zero (lat lon : ℝ) (l : List City) (n : String) :
    findNearestCityGo lat lon l (n, some 0) = (n, some 0) := by
  induction l generalizing n with
  | nil => rfl
  | cons c rest ih =>
    rw [findNearestCityGo, if_neg (not_lt.mpr (haversineDist_nonneg lat lon c)), ih]

theorem findNearestCityGo_pos (lat lon : ℝ) (l : List City)
    (h : ∀ c ∈ l, 0 < haversineDist lat lon c) :
    ∀ acc : String × Option ℝ, (acc.2 = none ∨ ∃ m, acc.2 = some m ∧ 0 < m) →
      ((findNearestCityGo lat lon l acc).2 = none ∨
        ∃ m, (findNearestCityGo lat lon l acc).2 = some m ∧ 0 < m) := by
  induction l with
  | nil => intro acc hacc; exact hacc
  | cons c rest ih =>
    intro acc hacc
    obtain ⟨n, o⟩ := acc
    have hrest : ∀ e ∈ rest, 0 < haversineDist lat lon e :=
      fun e he => h e (List.mem_cons_of_mem _ he)
    have hc : 0 < haversineDist lat lon c := h c (List.mem_cons_self _ _)
    cases o with
    | none =>
      rw [findNearestCityGo]
      exact ih hrest _ (Or.inr ⟨_, rfl, hc⟩)
    | some m =>
      rcases hacc with hnone | ⟨m2, hm2, hpos⟩
      · simp at hnone
      · have hm : m = m2 := by simpa using hm2
        subst hm
        rw [findNearestCityGo]
        split_ifs with hlt
        · exact ih hrest _ (Or.inr ⟨_, rfl, hc⟩)
        · exact ih hrest _ (Or.inr ⟨_, rfl, hpos⟩)

theorem findNearestCityIn_eq_of_here (lat lon : ℝ) (l₁ : List City) (c : City)
    (l₂ : List City) (hzero : haversineDist lat lon c = 0)
    (hpos : ∀ e ∈ l₁, 0 < haversineDist lat lon e) :
    findNearestCityIn (l₁ ++ c :: l₂) lat lon = (c.name, some 0) := by
  have hgo := findNearestCityGo_pos lat lon l₁ hpos ("Unknown location", none) (Or.inl rfl)
  simp only [findNearestCityIn]
  rw [findNearestCityGo_append]
  rcases hAeq : findNearestCityGo lat lon l₁ ("Unknown location", none) with ⟨n, o⟩
  rw [hAeq] at hgo
  have hfinish : findNearestCityGo lat lon (c :: l₂) (n, o) = (c.name, some 0) := by
    cases o with
    | none =>
      rw [findNearestCityGo, hzero, findNearestCityGo_keep_zero]
    | some m =>
      rcases hgo with hnone | ⟨m2, hm2, hposm⟩
      · simp at hnone
      · have hm : m = m2 := by simpa using hm2
        subst hm
        rw [findNearestCityGo, hzero, if_pos hposm, findNearestCityGo_keep_zero]
  rw [hfinish]
  simp [pyRound_zero]

theorem findNearestCityGo_min (lat lon : ℝ) (l : List City) :
    ∀ (n₀ : String) (m₀ : ℝ),
      ∃ n₁ m₁, findNearestCityGo lat lon l (n₀, some m₀) = (n₁, some m₁) ∧
        m₁ ≤ m₀ ∧ (∀ c ∈ l, m₁ ≤ haversineDist lat lon c) ∧
        ((n₁ = n₀ ∧ m₁ = m₀) ∨ ∃ c ∈ l, n₁ = c.name ∧ m₁ = haversineDist lat lon c) := by
  induction l with
  | nil =>
    intro n₀ m₀
    exact ⟨n₀, m₀, rfl, le_refl _, by simp, Or.inl ⟨rfl, rfl⟩⟩
  | cons c rest ih =>
    intro n₀ m₀
    rw [findNearestCityGo]
    split_ifs with hlt
    · obtain ⟨n₁, m₁, heq, hle, hall, hprov⟩ := ih c.name (haversineDist lat lon c)
      refine ⟨n₁, m₁, heq, hle.trans hlt.le, ?_, ?_⟩
      · intro e he
        rcases List.mem_cons.mp he with rfl | he2
        · exact hle
        · exact hall e he2
      · rcases hprov with ⟨hn, hm⟩ | ⟨e, he, hn, hm⟩
        · exact Or.inr ⟨c, List.mem_cons_self _ _, hn, hm⟩
        · exact Or.inr ⟨e, List.mem_cons_of_mem _ he, hn, hm⟩
    · obtain ⟨n₁, m₁, heq, hle, hall, hprov⟩ := ih n₀ m₀
      refine ⟨n₁, m₁, heq, hle, ?_, ?_⟩
      · intro e he
        rcases List.mem_cons.mp he with rfl | he2
        · exact hle.trans (not_lt.mp hlt)
        · exact hall e he2
      · rcases hprov with ⟨hn, hm⟩ | ⟨e, he, hn, hm⟩
        · exact Or.inl ⟨hn, hm⟩
        · exact Or.inr ⟨e, List.mem_cons_of_mem _ he, hn, hm⟩

set_option maxHeartbeats 4000000 in
theorem cities_bounded :
    ∀ c ∈ MAJOR_CITIES, -90 < c.lat ∧ c.lat < 90 ∧ -180 < c.lon ∧ c.lon < 180 := by
  simp only [MAJOR_CITIES, List.forall_mem_cons, List.forall_mem_nil]
  norm_num

theorem findNearestCityIn_city (l₁ : List City) (c : City) (l₂ : List City)
    (htab : MAJOR_CITIES = l₁ ++ c :: l₂)
    (hdiff : ∀ e ∈ l₁, e.lat ≠ c.lat ∨ e.lon ≠ c.lon) :
    find_nearest_city (c.lat : ℝ) (c.lon : ℝ) = (c.name, some 0) := by
  have hb := cities_bounded
  have hc : c ∈ MAJOR_CITIES := by
    rw [htab]; exact List.mem_append_right _ (List.mem_cons_self _ _)
  obtain ⟨c1, c2, c3, c4⟩ := hb c hc
  have cr1 : (-90 : ℝ) < (c.lat : ℝ) := by exact_mod_cast c1
  have cr2 : ((c.lat : ℝ)) < 90 := by exact_mod_cast c2
  have cr3 : (-180 : ℝ) < (c.lon : ℝ) := by exact_mod_cast c3
  have cr4 : ((c.lon : ℝ)) < 180 := by exact_mod_cast c4
  unfold find_nearest_city
  rw [htab]
  apply findNearestCityIn_eq_of_here
  · exact haversineDist_self rfl rfl
  · intro e he
    have heM : e ∈ MAJOR_CITIES := by
      rw [htab]; exact List.mem_append_left _ he
    obtain ⟨e1, e2, e3, e4⟩ := hb e heM
    have er1 : (-90 : ℝ) < (e.lat : ℝ) := by exact_mod_cast e1
    have er2 : ((e.lat : ℝ)) < 90 := by exact_mod_cast e2
    have er3 : (-180 : ℝ) < (e.lon : ℝ) := by exact_mod_cast e3
    have er4 : ((e.lon : ℝ)) < 180 := by exact_mod_cast e4
    apply haversineDist_pos cr1 cr2 er1 er2
    · rw [abs_lt]
      constructor <;> linarith
    · rcases hdiff e he with h | h
      · exact Or.inl fun hcast => h (by exact_mod_cast hcast)
      · exact Or.inr fun hcast => h (by exact_mod_cast hcast)

/-! ### Projection equations for `simulate_meteor_impact` -/

theorem simulate_mass (d v dist la lo a ρ : ℝ) :
    (simulate_meteor_impact d v dist la lo a ρ).mass_kg =
      (4 / 3) * Real.pi * (d / 2) ^ 3 * ρ := rfl

theorem simulate_energy (d v dist la lo a ρ : ℝ) :
    (simulate_meteor_impact d v dist la lo a ρ).impact_energy_j =
      0.5 * ((4 / 3) * Real.pi * (d / 2) ^ 3 * ρ) * (v * 1000) ^ 2 *
        Real.sin (radians a) := rfl

theorem simulate_energy_mt (d v dist la lo a ρ : ℝ) :
    (simulate_meteor_impact d v dist la lo a ρ).impact_energy_mt =
      (simulate_meteor_impact d v dist la lo a ρ).impact_energy_j / 4.184e15 := rfl

theorem simulate_crater (d v dist la lo a ρ : ℝ) :
    (simulate_meteor_impact d v dist la lo a ρ).crater_diameter_m =
      1.161 * (((4 / 3) * Real.pi * (d / 2) ^ 3 * ρ) ^ ((1 : ℝ) / 3) *
        (v * 1000) ^ (0.44 : ℝ)) / (2700 : ℝ) ^ (0.22 : ℝ) *
        Real.sin (radians a) ^ (0.33 : ℝ) := rfl

theorem simulate_damage (d v dist la lo a ρ : ℝ) :
    (simulate_meteor_impact d v dist la lo a ρ).damage_radius_km =
      (simulate_meteor_impact d v dist la lo a ρ).crater_diameter_m / 1000 * 20 := rfl

theorem simulate_proximity (d v dist la lo a ρ : ℝ) :
    (simulate_meteor_impact d v dist la lo a ρ).proximity_risk =
      min 100 (max 0 ((1e7 - dist) / 1e5)) := rfl

theorem simulate_impact_risk (d v dist la lo a ρ : ℝ) :
    (simulate_meteor_impact d v dist la lo a ρ).impact_risk =
      impactRisk (simulate_meteor_impact d v dist la lo a ρ).impact_energy_mt
        (simulate_meteor_impact d v dist la lo a ρ).damage_radius_km := rfl

theorem simulate_combined (d v dist la lo a ρ : ℝ) :
    (simulate_meteor_impact d v dist la lo a ρ).combined_risk_factor =
      pyRound 1 (min 100 (max 0
        ((simulate_meteor_impact d v dist la lo a ρ).proximity_risk * 0.4 +
         (simulate_meteor_impact d v dist la lo a ρ).impact_risk * 0.6))) := rfl

theorem simulate_class (d v dist la lo a ρ : ℝ) :
    (simulate_meteor_impact d v dist la lo a ρ).impact_classification =
      impactClass (simulate_meteor_impact d v dist la lo a ρ).impact_energy_mt := rfl

theorem simulate_casualty (d v dist la lo a ρ : ℝ) :
    (simulate_meteor_impact d v dist la lo a ρ).casualty_estimate =
      casualtyEstimate (simulate_meteor_impact d v dist la lo a ρ).impact_energy_mt := rfl

theorem simulate_nearest (d v dist la lo a ρ : ℝ) :
    (simulate_meteor_impact d v dist la lo a ρ).nearest_city =
      (find_nearest_city la lo).1 := rfl

theorem simulate_city_distance (d v dist la lo a ρ : ℝ) :
    (simulate_meteor_impact d v dist la lo a ρ).city_distance_km =
      (find_nearest_city la lo).2 := rfl

theorem simulate_city_affected (d v dist la lo a ρ : ℝ) :
    (simulate_meteor_impact d v dist la lo a ρ).city_affected =
      optionLE (find_nearest_city la lo).2
        (simulate_meteor_impact d v dist la lo a ρ).damage_radius_km := rfl

/-! ### Risk bound helpers -/

theorem pyRound_bounds (n : ℕ) {x : ℝ} {B : ℕ} (h0 : 0 ≤ x) (h1 : x ≤ B) :
    0 ≤ pyRound n x ∧ pyRound n x ≤ B := by
  constructor
  · have h := pyRound_mono n h0
    rwa [pyRound_zero] at h
  · have h := pyRound_mono n h1
    rwa [pyRound_natCast] at h

theorem impactRisk_bounds (mt : ℝ) {dr : ℝ} (hdr : 0 ≤ dr) :
    5 ≤ impactRisk mt dr ∧ impactRisk mt dr ≤ 100 := by
  unfold impactRisk
  split_ifs with h1 h2 h3
  · constructor <;> norm_num
  · constructor
    · exact le_min (by norm_num) (by linarith)
    · exact (min_le_left _ _).trans (by norm_num)
  · constructor
    · exact le_min (by norm_num) (by linarith)
    · exact (min_le_left _ _).trans (by norm_num)
  · constructor
    · exact le_min (by norm_num) (by linarith)
    · exact min_le_left _ _

theorem damage_radius_pos (d v dist la lo a ρ : ℝ) (hd : 0 < d) (hv : 0 < v)
    (ha1 : 0 < a) (ha2 : a ≤ 90) (hρ : 0 < ρ) :
    0 < (simulate_meteor_impact d v dist la lo a ρ).damage_radius_km := by
  rw [simulate_damage, simulate_crater]
  have hsin := sin_radians_pos ha1 ha2
  have hpi := Real.pi_pos
  positivity

/-! ### The claims -/

/-- C4: when `energy_megatons` is exactly 0.01, 1 or 1000 MT, the
`impact_risk` computation and the matching classification/casualty
branches select the upper-tier formula (tier boundaries inclusive-lower). -/
theorem claim_C4_boundaries_select_upper_tier (dr : ℝ) :
    impactRisk 0.01 dr = min 50 (20 + dr) ∧
    impactRisk 1 dr = min 80 (50 + 0.5 * dr) ∧
    impactRisk 1000 dr = min 100 (80 + 0.1 * dr) ∧
    impactClass 0.01 = "Tunguska-scale regional event" ∧
    impactClass 1 = "City to country-scale devastation" ∧
    impactClass 1000 = "Global catastrophic impact" ∧
    casualtyEstimate 0.01 = "100s-1,000s (within 50km radius)" ∧
    casualtyEstimate 1 = "10,000s-100,000s (regional catastrophe)" ∧
    casualtyEstimate 1000 = "Millions to billions (mass extinction event)" := by
  unfold impactRisk impactClass casualtyEstimate
  norm_num
  constructor
  · congr 1
    ring
  · congr 1
    ring

/-- C6: `get_mitigation_strategy` partitions the risk axis at 20, 50, 80
with boundaries belonging to the upper tier, and the six sample points of
the spec land in the stated tiers. -/
theorem claim_C6_mitigation_tier_partition :
    (∀ r : ℝ, ((get_mitigation_strategy r = .LOW) ↔ r < 20) ∧
      ((get_mitigation_strategy r = .MODERATE) ↔ 20 ≤ r ∧ r < 50) ∧
      ((get_mitigation_strategy r = .HIGH) ↔ 50 ≤ r ∧ r < 80) ∧
      ((get_mitigation_strategy r = .EXTREME) ↔ 80 ≤ r)) ∧
    get_mitigation_strategy 19.9 = .LOW ∧
    get_mitigation_strategy 20 = .MODERATE ∧
    get_mitigation_strategy 49.9 = .MODERATE ∧
    get_mitigation_strategy 50 = .HIGH ∧
    get_mitigation_strategy 79.9 = .HIGH ∧
    get_mitigation_strategy 80 = .EXTREME := by
  constructor
  · intro r
    unfold get_mitigation_strategy
    refine ⟨?_, ?_, ?_, ?_⟩ <;>
      (split_ifs with h1 h2 h3 <;>
        simp_all <;>
        first
        | linarith
        | (intro h; linarith))
  · refine ⟨?_, ?_, ?_, ?_, ?_, ?_⟩ <;> (unfold get_mitigation_strategy; norm_num)

/-- C3: for every valid parameter set the three risk outputs of
`simulate_meteor_impact` lie in [0, 100], and the combined risk factor is
a multiple of 1/10 (rounded to one decimal place). -/
theorem claim_C3_risks_in_range (d v dist la lo a ρ : ℝ)
    (hd : 0 < d) (hv : 0 < v) (hdist : 0 ≤ dist) (ha1 : 0 < a) (ha2 : a ≤ 90)
    (hρ : 0 < ρ) (hla : |la| ≤ 90) (hlo : |lo| ≤ 180) :
    (0 ≤ (simulate_meteor_impact d v dist la lo a ρ).proximity_risk ∧
      (simulate_meteor_impact d v dist la lo a ρ).proximity_risk ≤ 100) ∧
    (0 ≤ (simulate_meteor_impact d v dist la lo a ρ).impact_risk ∧
      (simulate_meteor_impact d v dist la lo a ρ).impact_risk ≤ 100) ∧
    (0 ≤ (simulate_meteor_impact d v dist la lo a ρ).combined_risk_factor ∧
      (simulate_meteor_impact d v dist la lo a ρ).combined_risk_factor ≤ 100) ∧
    ∃ k : ℤ, (simulate_meteor_impact d v dist la lo a ρ).combined_risk_factor =
      (k : ℝ) / 10 := by
  have hdr := (damage_radius_pos d v dist la lo a ρ hd hv ha1 ha2 hρ).le
  have hir := impactRisk_bounds ((simulate_meteor_impact d v dist la lo a ρ).impact_energy_mt) hdr
  rw [← simulate_impact_risk] at hir
  have hprox : 0 ≤ (simulate_meteor_impact d v dist la lo a ρ).proximity_risk ∧
      (simulate_meteor_impact d v dist la lo a ρ).proximity_risk ≤ 100 := by
    rw [simulate_proximity]
    exact ⟨le_min (by norm_num) (le_max_left _ _), min_le_left _ _⟩
  refine ⟨hprox, ⟨by linarith [hir.1], hir.2⟩, ?_, ?_⟩
  · rw [simulate_combined]
    have h0 : 0 ≤ min 100 (max 0
        ((simulate_meteor_impact d v dist la lo a ρ).proximity_risk * 0.4 +
         (simulate_meteor_impact d v dist la lo a ρ).impact_risk * 0.6)) :=
      le_min (by norm_num) (le_max_left _ _)
    have h100 : min 100 (max 0
        ((simulate_meteor_impact d v dist la lo a ρ).proximity_risk * 0.4 +
         (simulate_meteor_impact d v dist la lo a ρ).impact_risk * 0.6)) ≤ ((100 : ℕ) : ℝ) := by
      exact_mod_cast min_le_left _ _
    have := pyRound_bounds 1 h0 h100
    exact_mod_cast this
  · rw [simulate_combined, pyRound]
    refine ⟨round ((min 100 (max 0
        ((simulate_meteor_impact d v dist la lo a ρ).proximity_risk * 0.4 +
         (simulate_meteor_impact d v dist la lo a ρ).impact_risk * 0.6))) * 10 ^ 1), ?_⟩
    norm_num

/-- Witness for C3 at the concrete valid input of the worked example. -/
theorem claim_C3_witness :
    (0:ℝ) < 100 ∧ (0:ℝ) < 20 ∧ (0:ℝ) ≤ 50000 ∧ (0:ℝ) < 45 ∧ (45:ℝ) ≤ 90 ∧
    (0:ℝ) < 3000 ∧ |(40.7128:ℝ)| ≤ 90 ∧ |(-74.0060:ℝ)| ≤ 180 ∧
    (0 ≤ (simulate_meteor_impact 100 20 50000 40.7128 (-74.0060) 45 3000).combined_risk_factor ∧
      (simulate_meteor_impact 100 20 50000 40.7128 (-74.0060) 45 3000).combined_risk_factor ≤ 100) := by
  have h := claim_C3_risks_in_range 100 20 50000 40.7128 (-74.0060) 45 3000
    (by norm_num) (by norm_num) (by norm_num) (by norm_num) (by norm_num)
    (by norm_num) (by rw [abs_of_nonneg] <;> norm_num) (by rw [abs_of_nonpos] <;> norm_num)
  refine ⟨by norm_num, by norm_num, by norm_num, by norm_num, by norm_num, by norm_num,
    by rw [abs_of_nonneg] <;> norm_num, by rw [abs_of_nonpos] <;> norm_num, h.2.2.1⟩

/-- C10: for every valid input, the impact risk is at least 5 (the lowest
branch is the flat 5 and every higher branch is at least 20), hence the
combined risk factor is at least 3.0 and never 0. -/
theorem claim_C10_risk_floor (d v dist la lo a ρ : ℝ)
    (hd : 0 < d) (hv : 0 < v) (hdist : 0 ≤ dist) (ha1 : 0 < a) (ha2 : a ≤ 90)
    (hρ : 0 < ρ) :
    5 ≤ (simulate_meteor_impact d v dist la lo a ρ).impact_risk ∧
    3 ≤ (simulate_meteor_impact d v dist la lo a ρ).combined_risk_factor ∧
    (simulate_meteor_impact d v dist la lo a ρ).combined_risk_factor ≠ 0 := by
  have hdr := (damage_radius_pos d v dist la lo a ρ hd hv ha1 ha2 hρ).le
  have hir := impactRisk_bounds ((simulate_meteor_impact d v dist la lo a ρ).impact_energy_mt) hdr
  rw [← simulate_impact_risk] at hir
  have hprox : 0 ≤ (simulate_meteor_impact d v dist la lo a ρ).proximity_risk := by
    rw [simulate_proximity]
    exact le_min (by norm_num) (le_max_left _ _)
  have hcomb : 3 ≤ (simulate_meteor_impact d v dist la lo a ρ).combined_risk_factor := by
    rw [simulate_combined]
    have h3 : ((3 : ℕ) : ℝ) ≤ min 100 (max 0
        ((simulate_meteor_impact d v dist la lo a ρ).proximity_risk * 0.4 +
         (simulate_meteor_impact d v dist la lo a ρ).impact_risk * 0.6)) := by
      apply le_min (by norm_num)
      apply le_trans _ (le_max_right _ _)
      push_cast
      nlinarith [hir.1, hprox]
    have hm := pyRound_mono 1 h3
    rw [pyRound_natCast] at hm
    exact_mod_cast hm
  exact ⟨hir.1, hcomb, by linarith⟩

/-- Witness for C10 at a small, distant, but valid impactor. -/
theorem claim_C10_witness :
    (0:ℝ) < 0.001 ∧ (0:ℝ) < 0.001 ∧ (0:ℝ) ≤ 9.9e6 ∧ (0:ℝ) < 45 ∧ (45:ℝ) ≤ 90 ∧
    (0:ℝ) < 1 ∧
    (3 ≤ (simulate_meteor_impact 0.001 0.001 9.9e6 0 0 45 1).combined_risk_factor ∧
      (simulate_meteor_impact 0.001 0.001 9.9e6 0 0 45 1).combined_risk_factor ≠ 0) := by
  have h := claim_C10_risk_floor 0.001 0.001 9.9e6 0 0 45 1
    (by norm_num) (by norm_num) (by norm_num) (by norm_num) (by norm_num) (by norm_num)
  exact ⟨by norm_num, by norm_num, by norm_num, by norm_num, by norm_num, by norm_num,
    h.2.1, h.2.2⟩

/-- C7: with diameter, distance, angle, density and coordinates fixed,
a strictly larger velocity gives strictly larger `impact_energy_mt` and
strictly larger `damage_radius_km`. -/
theorem claim_C7_velocity_strict_mono (d dist la lo a ρ v1 v2 : ℝ)
    (hd : 0 < d) (hρ : 0 < ρ) (ha1 : 0 < a) (ha2 : a ≤ 90)
    (hv1 : 0 < v1) (h12 : v1 < v2) :
    (simulate_meteor_impact d v1 dist la lo a ρ).impact_energy_mt <
      (simulate_meteor_impact d v2 dist la lo a ρ).impact_energy_mt ∧
    (simulate_meteor_impact d v1 dist la lo a ρ).damage_radius_km <
      (simulate_meteor_impact d v2 dist la lo a ρ).damage_radius_km := by
  have hpi := Real.pi_pos
  have hsin := sin_radians_pos ha1 ha2
  have hM : 0 < (4 / 3) * Real.pi * (d / 2) ^ 3 * ρ := by positivity
  have hsq : (v1 * 1000) ^ 2 < (v2 * 1000) ^ 2 := by nlinarith
  constructor
  · rw [simulate_energy_mt, simulate_energy_mt, simulate_energy, simulate_energy]
    have hkey := mul_pos (mul_pos hM hsin) (sub_pos.mpr hsq)
    rw [div_lt_div_iff (by norm_num) (by norm_num)]
    nlinarith [hkey]
  · rw [simulate_damage, simulate_damage, simulate_crater, simulate_crater]
    have hv1k : (0:ℝ) < v1 * 1000 := by positivity
    have h044 : (v1 * 1000) ^ (0.44 : ℝ) < (v2 * 1000) ^ (0.44 : ℝ) :=
      Real.rpow_lt_rpow hv1k.le (by linarith) (by norm_num)
    have hA : 0 < ((4 / 3) * Real.pi * (d / 2) ^ 3 * ρ) ^ ((1 : ℝ) / 3) :=
      Real.rpow_pos_of_pos hM _
    have hB : (0:ℝ) < (2700 : ℝ) ^ (0.22 : ℝ) := Real.rpow_pos_of_pos (by norm_num) _
    have hC : 0 < Real.sin (radians a) ^ (0.33 : ℝ) := Real.rpow_pos_of_pos hsin _
    gcongr

/-- Witness for C7 at a concrete pair of velocities. -/
theorem claim_C7_witness :
    (0:ℝ) < 100 ∧ (0:ℝ) < 3000 ∧ (0:ℝ) < 45 ∧ (45:ℝ) ≤ 90 ∧ (0:ℝ) < 10 ∧ (10:ℝ) < 20 ∧
    (simulate_meteor_impact 100 10 50000 0 0 45 3000).impact_energy_mt <
      (simulate_meteor_impact 100 20 50000 0 0 45 3000).impact_energy_mt := by
  have h := claim_C7_velocity_strict_mono 100 50000 0 0 45 3000 10 20
    (by norm_num) (by norm_num) (by norm_num) (by norm_num) (by norm_num) (by norm_num)
  exact ⟨by norm_num, by norm_num, by norm_num, by norm_num, by norm_num, by norm_num, h.1⟩

/-- C9: for every risk value in [0, 100] (in particular every value that
`calculate_risk_factor` can produce) the index `min(19, int(risk/5))` of
`choose_mitigation` is a valid index of the 20-entry strategy list, so the
lookup always yields one of the fixed strategies, and `risk = 100` maps to
index 19. -/
theorem claim_C9_choose_mitigation_total :
    (∀ risk : ℝ, 0 ≤ risk → risk ≤ 100 →
      0 ≤ mitigationIndex risk ∧ mitigationIndex risk < 20 ∧
      ∃ s, choose_mitigation risk = some s ∧ s ∈ MITIGATION_STRATEGIES) ∧
    mitigationIndex 100 = 19 ∧
    choose_mitigation 100 = some "Research into long-term planetary defense strategies." ∧
    ∀ diameter velocity distance_km : ℝ,
      0 ≤ calculate_risk_factor diameter velocity distance_km ∧
      calculate_risk_factor diameter velocity distance_km ≤ 100 := by
  have hlen : (MITIGATION_STRATEGIES.length - 1 : ℤ) = 19 := by rfl
  have hidx : ∀ risk : ℝ, 0 ≤ risk → risk ≤ 100 →
      0 ≤ mitigationIndex risk ∧ mitigationIndex risk < 20 := by
    intro risk h0 h1
    unfold mitigationIndex pyInt
    rw [if_pos (by positivity : (0:ℝ) ≤ risk / 5), hlen]
    have hf0 : 0 ≤ ⌊risk / 5⌋ := Int.floor_nonneg.mpr (by positivity)
    exact ⟨le_min (by norm_num) hf0, lt_of_le_of_lt (min_le_left _ _) (by norm_num)⟩
  have h100 : mitigationIndex 100 = 19 := by
    unfold mitigationIndex pyInt
    rw [if_pos (by norm_num : (0:ℝ) ≤ 100 / 5), hlen]
    rw [show ((100:ℝ) / 5) = ((20:ℤ) : ℝ) by norm_num, Int.floor_intCast]
    rfl
  refine ⟨?_, h100, ?_, ?_⟩
  · intro risk h0 h1
    obtain ⟨hge, hlt⟩ := hidx risk h0 h1
    refine ⟨hge, hlt, ?_⟩
    unfold choose_mitigation pyListGet
    rw [if_neg (not_lt.mpr hge), if_pos hge]
    have ht : (mitigationIndex risk).toNat < MITIGATION_STRATEGIES.length := by
      have h20 : MITIGATION_STRATEGIES.length = 20 := rfl
      omega
    exact ⟨_, List.get?_eq_get ht, List.get_mem _ _ _⟩
  · unfold choose_mitigation pyListGet
    rw [h100]
    norm_num
    rfl
  · intro diameter velocity distance_km
    unfold calculate_risk_factor
    have h0 : 0 ≤ min 100 (max 0
        (0.5 * (4 / 3 * Real.pi * (diameter / 2) ^ 3 * 3000) * (velocity * 1000) ^ 2 /
          4.184e15 * 0.5 + (1e7 - distance_km) / 1e5)) :=
      le_min (by norm_num) (le_max_left _ _)
    have h100b : min 100 (max 0
        (0.5 * (4 / 3 * Real.pi * (diameter / 2) ^ 3 * 3000) * (velocity * 1000) ^ 2 /
          4.184e15 * 0.5 + (1e7 - distance_km) / 1e5)) ≤ ((100:ℕ) : ℝ) := by
      exact_mod_cast min_le_left _ _
    have h := pyRound_bounds 1 h0 h100b
    exact_mod_cast h

/-- Witness for C9 at `risk = 100`. -/
theorem claim_C9_witness :
    (0:ℝ) ≤ 100 ∧ (100:ℝ) ≤ 100 ∧
    (0 ≤ mitigationIndex 100 ∧ mitigationIndex 100 < 20 ∧
      ∃ s, choose_mitigation 100 = some s ∧ s ∈ MITIGATION_STRATEGIES) := by
  have h := claim_C9_choose_mitigation_total
  exact ⟨by norm_num, by norm_num, h.1 100 (by norm_num) (by norm_num)⟩

theorem findNearestCityIn_some (table : List City) (h : table ≠ []) (lat lon : ℝ) :
    ∃ n d, findNearestCityIn table lat lon = (n, some d) := by
  cases table with
  | nil => exact absurd rfl h
  | cons c rest =>
    simp only [findNearestCityIn]
    rw [show findNearestCityGo lat lon (c :: rest) ("Unknown location", none) =
        findNearestCityGo lat lon rest (c.name, some (haversineDist lat lon c)) from rfl]
    obtain ⟨n₁, m₁, heq, -, -, -⟩ :=
      findNearestCityGo_min lat lon rest c.name (haversineDist lat lon c)
    rw [heq]
    exact ⟨n₁, pyRound 2 m₁, rfl⟩

/-- C8: the `city_affected` flag is true exactly when the (rounded)
nearest-city distance is at most `damage_radius_km`, equality included. -/
theorem claim_C8_city_affected_iff (d v dist la lo a ρ : ℝ)
    (hd : 0 < d) (hv : 0 < v) (hdist : 0 ≤ dist) (ha1 : 0 < a) (ha2 : a ≤ 90)
    (hρ : 0 < ρ) (hla : |la| ≤ 90) (hlo : |lo| ≤ 180) :
    ∃ dd, (simulate_meteor_impact d v dist la lo a ρ).city_distance_km = some dd ∧
      ((simulate_meteor_impact d v dist la lo a ρ).city_affected ↔
        dd ≤ (simulate_meteor_impact d v dist la lo a ρ).damage_radius_km) := by
  have hne : MAJOR_CITIES ≠ [] := by unfold MAJOR_CITIES; simp
  obtain ⟨n, dd, heq⟩ := findNearestCityIn_some MAJOR_CITIES hne la lo
  rw [simulate_city_distance, simulate_city_affected]
  unfold find_nearest_city
  rw [heq]
  refine ⟨dd, rfl, ?_⟩
  unfold optionLE
  constructor
  · rintro ⟨e, he, hle⟩
    have hde : dd = e := Option.some.inj he
    subst hde
    exact hle
  · intro h
    exact ⟨dd, rfl, h⟩

/-- Witness for C8 at the worked example input. -/
theorem claim_C8_witness :
    (0:ℝ) < 100 ∧ (0:ℝ) < 20 ∧ (0:ℝ) ≤ 50000 ∧ (0:ℝ) < 45 ∧ (45:ℝ) ≤ 90 ∧
    (0:ℝ) < 3000 ∧ |(40.7128:ℝ)| ≤ 90 ∧ |(-74.0060:ℝ)| ≤ 180 ∧
    ∃ dd, (simulate_meteor_impact 100 20 50000 40.7128 (-74.0060) 45 3000).city_distance_km
        = some dd ∧
      ((simulate_meteor_impact 100 20 50000 40.7128 (-74.0060) 45 3000).city_affected ↔
        dd ≤ (simulate_meteor_impact 100 20 50000 40.7128 (-74.0060) 45 3000).damage_radius_km) := by
  have h := claim_C8_city_affected_iff 100 20 50000 40.7128 (-74.0060) 45 3000
    (by norm_num) (by norm_num) (by norm_num) (by norm_num) (by norm_num)
    (by norm_num) (by rw [abs_of_nonneg] <;> norm_num) (by rw [abs_of_nonpos] <;> norm_num)
  exact ⟨by norm_num, by norm_num, by norm_num, by norm_num, by norm_num, by norm_num,
    by rw [abs_of_nonneg] <;> norm_num, by rw [abs_of_nonpos] <;> norm_num, h⟩

/-- Counterexample to C2 as stated: on the empty table `find_nearest_city`
does not fail or signal a configuration error; it returns the sentinel
`"Unknown location"` with the infinite initial minimum distance. -/
theorem claim_C2_counterexample :
    findNearestCityIn [] 0 0 = ("Unknown location", none) := rfl

/-- C2 amended: the scan never fails; on an empty table it returns the
sentinel (see the counterexample), and on every non-empty table it returns
an entry of minimum great-circle distance, with the distance rounded to 2
decimals. -/
theorem claim_C2_nearest_is_minimum (table : List City) (lat lon : ℝ)
    (h : table ≠ []) :
    ∃ c ∈ table,
      findNearestCityIn table lat lon =
        (c.name, some (pyRound 2 (haversineDist lat lon c))) ∧
      ∀ e ∈ table, haversineDist lat lon c ≤ haversineDist lat lon e := by
  cases table with
  | nil => exact absurd rfl h
  | cons c0 rest =>
    simp only [findNearestCityIn]
    rw [show findNearestCityGo lat lon (c0 :: rest) ("Unknown location", none) =
        findNearestCityGo lat lon rest (c0.name, some (haversineDist lat lon c0)) from rfl]
    obtain ⟨n₁, m₁, heq, hle, hall, hprov⟩ :=
      findNearestCityGo_min lat lon rest c0.name (haversineDist lat lon c0)
    rw [heq]
    rcases hprov with ⟨hn, hm⟩ | ⟨e, he, hn, hm⟩
    · refine ⟨c0, List.mem_cons_self _ _, by rw [hn, hm]; rfl, ?_⟩
      intro e he
      rcases List.mem_cons.mp he with rfl | he2
      · exact le_refl _
      · rw [← hm]
        exact hall e he2
    · refine ⟨e, List.mem_cons_of_mem _ he, by rw [hn, hm]; rfl, ?_⟩
      intro e2 he2
      rcases List.mem_cons.mp he2 with rfl | he3
      · rw [← hm]
        exact hle
      · rw [← hm]
        exact hall e2 he3

/-- Witness for the amended C2 on a concrete one-entry table. -/
theorem claim_C2_witness :
    ([(⟨"Test", 0, 0, 1⟩ : City)] : List City) ≠ [] ∧
    ∃ c ∈ ([(⟨"Test", 0, 0, 1⟩ : City)] : List City),
      findNearestCityIn [(⟨"Test", 0, 0, 1⟩ : City)] 0 0 =
        (c.name, some (pyRound 2 (haversineDist 0 0 c))) ∧
      ∀ e ∈ ([(⟨"Test", 0, 0, 1⟩ : City)] : List City),
        haversineDist 0 0 c ≤ haversineDist 0 0 e :=
  ⟨by simp, claim_C2_nearest_is_minimum [⟨"Test", 0, 0, 1⟩] 0 0 (by simp)⟩

/-- C5: querying `find_nearest_city` with the exact coordinates of a listed
center returns that center with distance 0.00, provided no earlier-listed
center shares those coordinates. -/
theorem claim_C5_listed_center_distance_zero (l₁ : List City) (c : City)
    (l₂ : List City) (htab : MAJOR_CITIES = l₁ ++ c :: l₂)
    (hdiff : ∀ e ∈ l₁, e.lat ≠ c.lat ∨ e.lon ≠ c.lon) :
    find_nearest_city (c.lat : ℝ) (c.lon : ℝ) = (c.name, some 0) :=
  findNearestCityIn_city l₁ c l₂ htab hdiff

/-- Witness for C5: the second listed center (Los Angeles), whose
coordinates differ from the one earlier entry (New York). -/
theorem claim_C5_witness :
    MAJOR_CITIES = [(⟨"New York, USA", 40.7128, -74.0060, 8336817⟩ : City)] ++
      (⟨"Los Angeles, USA", 34.0522, -118.2437, 3979576⟩ : City) ::
        MAJOR_CITIES.drop 2 ∧
    find_nearest_city ((34.0522 : ℚ) : ℝ) (((-118.2437 : ℚ)) : ℝ) =
      ("Los Angeles, USA", some 0) := by
  constructor
  · rfl
  · apply claim_C5_listed_center_distance_zero
      [(⟨"New York, USA", 40.7128, -74.0060, 8336817⟩ : City)]
      (⟨"Los Angeles, USA", 34.0522, -118.2437, 3979576⟩ : City)
      (MAJOR_CITIES.drop 2) rfl
    intro e he
    rw [List.mem_singleton] at he
    subst he
    left
    norm_num

/-- C1: the worked end-to-end example.  For diameter 100 m, velocity
20 km/s, distance 50000 km, angle 45°, density 3000 kg/m³ at New York's
coordinates, the simulation gives mass ≈ 1.571e9 kg, impact energy
≈ 2.22e17 J (≈ 53 megatons, inside the catastrophic tier [1, 1000)),
nearest city "New York, USA" at rounded distance 0.00, and the city is in
the danger zone. -/
theorem claim_C1_worked_example :
    |(simulate_meteor_impact 100 20 50000 40.7128 (-74.0060)).mass_kg - 1.571e9| < 1e6 ∧
    |(simulate_meteor_impact 100 20 50000 40.7128 (-74.0060)).impact_energy_j - 2.22e17|
      < 1e15 ∧
    53 < (simulate_meteor_impact 100 20 50000 40.7128 (-74.0060)).impact_energy_mt ∧
    (simulate_meteor_impact 100 20 50000 40.7128 (-74.0060)).impact_energy_mt < 54 ∧
    (simulate_meteor_impact 100 20 50000 40.7128 (-74.0060)).nearest_city
      = "New York, USA" ∧
    (simulate_meteor_impact 100 20 50000 40.7128 (-74.0060)).city_distance_km = some 0 ∧
    (simulate_meteor_impact 100 20 50000 40.7128 (-74.0060)).city_affected ∧
    (simulate_meteor_impact 100 20 50000 40.7128 (-74.0060)).impact_classification =
      "City to country-scale devastation" := by
  have hpi1 := Real.pi_gt_d4
  have hpi2 := Real.pi_lt_d4
  have hs2 : Real.sqrt 2 ^ 2 = 2 := Real.sq_sqrt (by norm_num)
  have hs0 : 0 ≤ Real.sqrt 2 := Real.sqrt_nonneg 2
  have hs2a : 1.414 < Real.sqrt 2 := by nlinarith
  have hs2b : Real.sqrt 2 < 1.415 := by nlinarith
  have hsin : Real.sin (radians 45) = Real.sqrt 2 / 2 := by
    rw [show radians 45 = Real.pi / 4 by unfold radians; ring, Real.sin_pi_div_four]
  have hnear : find_nearest_city 40.7128 (-74.0060) = ("New York, USA", some 0) := by
    have h := findNearestCityIn_city []
      (⟨"New York, USA", 40.7128, -74.0060, 8336817⟩ : City)
      (MAJOR_CITIES.drop 1) rfl (by simp)
    rw [show (((⟨"New York, USA", 40.7128, -74.0060, 8336817⟩ : City).lat : ℚ) : ℝ) =
          (40.7128 : ℝ) by norm_num,
        show (((⟨"New York, USA", 40.7128, -74.0060, 8336817⟩ : City).lon : ℚ) : ℝ) =
          (-74.0060 : ℝ) by norm_num] at h
    exact h
  have hmt1 : 53 < (simulate_meteor_impact 100 20 50000 40.7128 (-74.0060)).impact_energy_mt := by
    rw [simulate_energy_mt, simulate_energy, hsin, lt_div_iff (by norm_num : (0:ℝ) < 4.184e15)]
    nlinarith [hpi1, hs2a, hs0]
  have hmt2 : (simulate_meteor_impact 100 20 50000 40.7128 (-74.0060)).impact_energy_mt < 54 := by
    rw [simulate_energy_mt, simulate_energy, hsin, div_lt_iff (by norm_num : (0:ℝ) < 4.184e15)]
    nlinarith [hpi2, hs2b, hs0, hpi1]
  have hdr := damage_radius_pos 100 20 50000 40.7128 (-74.0060) 45 3000
    (by norm_num) (by norm_num) (by norm_num) (by norm_num) (by norm_num)
  refine ⟨?_, ?_, hmt1, hmt2, ?_, ?_, ?_, ?_⟩
  · rw [simulate_mass, abs_lt]
    constructor <;> nlinarith [hpi1, hpi2]
  · rw [simulate_energy, hsin, abs_lt]
    constructor <;> nlinarith [hpi1, hpi2, hs2a, hs2b, hs0]
  · rw [simulate_nearest, hnear]
  · rw [simulate_city_distance, hnear]
  · rw [simulate_city_affected, hnear]
    exact ⟨0, rfl, hdr.le⟩
  · rw [simulate_class]
    unfold impactClass
    rw [if_neg (by push_neg; linarith), if_neg (by push_neg; linarith),
      if_pos (by linarith)]
